import Mathlib

/-!
Shallow embedding of the bulk AML job-processing engine of this repository.

Two variants of the engine exist in the source tree and are embedded side by
side:

* `Worker` — `src/worker/processing_script.py` (the RQ-worker pipeline, fed by
  `src/app/main.py`);
* `StApp` — `src/streamlit_app.py` (the self-contained Streamlit variant).

The external Screening Service is abstracted as a function from the request
payload and the attempt number to an outcome; file I/O is modelled as explicit
list values; database writes become an explicit trace of store operations.
-/

set_option maxRecDepth 4000

/-- The parts of the Screening Service JSON response the engine reads:
`status`, `result.match_status`, `result.total_hits`, `result.hits`. -/
structure ApiResponseJson where
  status : String
  match_status : Option String
  total_hits : Option Int
  hits : Option String
  deriving DecidableEq

/-- Outcome of one attempted HTTP call to the Screening Service: either a
parsed JSON response with an HTTP status code, or an exception carrying the
exception text and the status code recovered from `e.response`
(`-1` when the exception has no response, e.g. a timeout). -/
inductive ApiOutcome where
  | success (resp : ApiResponseJson) (code : Int)
  | failure (msg : String) (code : Int)

/-- The request filters built by `prepare_api_payload`
(`src/worker/processing_script.py` lines 51-62). -/
structure ApiFilters where
  types : List String
  name_fuzziness : String
  search_profile : String
  country_codes : List String
  entity_type : String
  birth_year : Option String
  pan_number : Option String
  deriving DecidableEq

/-- The request payload of `prepare_api_payload` (lines 63-72); the fresh
`task_id`/`group_id` UUIDs are not modelled (never read by the engine). -/
structure ApiPayload where
  search_term : String
  filters : ApiFilters
  version : String
  get_profile_pdf : Bool
  deriving DecidableEq

/-- `prepare_api_payload` from `src/worker/processing_script.py` lines 51-72:
a `birth_year` filter only for individual entities with a non-empty stripped
date, a `pan_number` filter only when the stripped id is non-empty. -/
def prepare_api_payload (full_name entity_type : String)
    (dob pan_number : Option String) : ApiPayload :=
  let et := entity_type.toLower
  let by_ : Option String :=
    if et = "individual" then
      match dob with
      | some d => if d.trim = "" then none else some d.trim
      | none => none
    else none
  let pan_ : Option String :=
    match pan_number with
    | some p => if p.trim = "" then none else some p.trim
    | none => none
  { search_term := full_name
    filters :=
      { types := ["sanctions", "pep", "warnings"]
        name_fuzziness := "1"
        search_profile := "all_default"
        country_codes := ["IN"]
        entity_type := et
        birth_year := by_
        pan_number := pan_ }
    version := "2"
    get_profile_pdf := false }

/-- Result of the retry wrapper: the triple returned by `make_api_call`
plus the observable attempt count and the list of `time.sleep` delays
(in seconds, in call order). -/
structure CallResult where
  response : Option ApiResponseJson
  status_code : Int
  error : Option String
  attempts : Nat
  sleeps : List Nat
  deriving DecidableEq

def MAX_RETRIES : Nat := 3
def RETRY_DELAY : Nat := 1
def TIMEOUT_SECONDS : Nat := 120

/-- The error string built on the final failed attempt
(`src/worker/processing_script.py` line 87). -/
def attempt_error (n : Nat) (m : String) : String :=
  "Error on attempt " ++ toString n ++ ": " ++ m

namespace Worker

/-- One iteration of the `for attempt in range(MAX_RETRIES)` loop of
`make_api_call` (`src/worker/processing_script.py` lines 81-91): `fuel` is
the number of loop iterations left, `att` the current attempt index, `slps`
the sleeps performed so far.  Fuel exhaustion corresponds to falling out of
the loop (line 92, `return None, -1, "Max retries reached"`). -/
def make_api_call_aux (svc : Nat → ApiOutcome) :
    Nat → Nat → List Nat → CallResult
  | 0, att, slps => ⟨none, -1, some "Max retries reached", att, slps⟩
  | fuel + 1, att, slps =>
    match svc att with
    | .success r c => ⟨some r, c, none, att + 1, slps⟩
    | .failure m c =>
      if att < MAX_RETRIES - 1 then
        make_api_call_aux svc fuel (att + 1) (slps ++ [RETRY_DELAY])
      else
        ⟨none, c, some (attempt_error (att + 1) m), att + 1, slps⟩

/-- `make_api_call` from `src/worker/processing_script.py` lines 74-92,
with the request construction factored out: `svc` maps the attempt index to
the outcome of the HTTP call for this payload. -/
def make_api_call (svc : Nat → ApiOutcome) : CallResult :=
  make_api_call_aux svc MAX_RETRIES 0 []

end Worker

namespace StApp

/-- One iteration of the `for _ in range(3)` loop of `make_api_call`
(`src/streamlit_app.py` lines 83-90): every failed attempt sleeps 1s
(including the last), and after the loop the fixed
`"Max retries reached"` triple is returned, dropping the caught error. -/
def make_api_call_aux (svc : Nat → ApiOutcome) :
    Nat → Nat → List Nat → CallResult
  | 0, att, slps => ⟨none, -1, some "Max retries reached", att, slps⟩
  | fuel + 1, att, slps =>
    match svc att with
    | .success r c => ⟨some r, c, none, att + 1, slps⟩
    | .failure _ _ => make_api_call_aux svc fuel (att + 1) (slps ++ [1])

/-- `make_api_call` from `src/streamlit_app.py` lines 77-90. -/
def make_api_call (svc : Nat → ApiOutcome) : CallResult :=
  make_api_call_aux svc 3 0 []

end StApp

/-- A CSV cell as written by `csv.writer`: a string field, an integer field,
or Python `None` (written as an empty field). -/
inductive Cell where
  | str (s : String)
  | int (n : Int)
  | null
  deriving DecidableEq

def optStr : Option String → Cell
  | some s => Cell.str s
  | none => Cell.null

def optInt : Option Int → Cell
  | some n => Cell.int n
  | none => Cell.null

/-- Extraction of `match_status` / `total_hits` from the response
(`src/worker/processing_script.py` lines 121-126): only read when the JSON
is present and its `status` field is `"success"`. -/
def extract_result (resp : Option ApiResponseJson) : Option String × Option Int :=
  match resp with
  | some r => if r.status = "success" then (r.match_status, r.total_hits) else (none, none)
  | none => (none, none)

/-- The four derived cells appended to an output row by the worker variant
(`src/worker/processing_script.py` line 128):
`api_status_code, match_status, total_hits, api_error`. -/
def derived_of (r : CallResult) : List Cell :=
  [Cell.int r.status_code, optStr (extract_result r.response).1,
   optInt (extract_result r.response).2, optStr r.error]

/-- Check whether `pat` begins `s`. -/
def beginsWith : List Char → List Char → Bool
  | _, [] => true
  | [], _ :: _ => false
  | a :: s, b :: t => a == b && beginsWith s t

/-- Check whether `pat` occurs somewhere in `s`. -/
def hasSub : List Char → List Char → Bool
  | [], pat => pat.isEmpty
  | a :: s, pat => beginsWith (a :: s) pat || hasSub s pat

/-- `mentions s pat` holds when the string `s` contains `pat`. -/
def mentions (s pat : String) : Bool :=
  hasSub s.toList pat.toList

/-- A Screening Service stub that always times out. -/
def failSvc : Nat → ApiOutcome := fun _ => ApiOutcome.failure "timeout" 500

/-- A row of the `jobs` table, restricted to the fields the engine writes
(schema: `src/streamlit_app.py` lines 40-45 / `src/app/main.py` lines 42-55;
`output_file_path` stands for `output_file_path` / `output_filename`). -/
structure Job where
  status : String
  end_timestamp : Option Nat
  output_file_path : Option String
  total_rows : Option Int
  processed_rows : Nat
  error_message : Option String
  deriving DecidableEq

def defaultJob : Job := ⟨"", none, none, none, 0, none⟩

/-- The job row inserted at submission (`src/app/main.py` lines 94-98 /
`src/streamlit_app.py` line 145): status `pending`, `total_rows` recorded,
`processed_rows` defaulting to 0, everything else NULL. -/
def freshJob (total_rows : Option Int) : Job :=
  ⟨"pending", none, none, total_rows, 0, none⟩

/-- One SQL write issued by the engine against the job's row:
`setStatus` is `update_job_status` (`UPDATE jobs SET status, error_message,
end_timestamp`, `src/worker/processing_script.py` lines 26-36);
`setProgress` is `update_job_progress` (lines 38-48); `setOutputRef` is the
`UPDATE jobs SET output_file_path` of lines 137-142. -/
inductive StoreOp where
  | setStatus (status : String) (error_message : Option String)
  | setProgress (n : Nat)
  | setOutputRef (path : String)
  deriving DecidableEq

/-- Effect of one store operation on the job row at time `now`; note that
`setStatus` always overwrites `end_timestamp`, because the UPDATE statement
of `update_job_status` unconditionally sets it to `datetime.utcnow()`. -/
def applyOp (now : Nat) (j : Job) : StoreOp → Job
  | .setStatus s e => { j with status := s, error_message := e, end_timestamp := some now }
  | .setProgress n => { j with processed_rows := n }
  | .setOutputRef p => { j with output_file_path := some p }

/-- Apply a trace of store operations, one per clock tick. -/
def applyOps : Nat → Job → List StoreOp → Job
  | _, j, [] => j
  | t, j, op :: rest => applyOps (t + 1) (applyOp t j op) rest

/-- The `(status, error_message)` pairs of the status writes in a trace. -/
def statusWrites (ops : List StoreOp) : List (String × Option String) :=
  ops.filterMap fun op =>
    match op with
    | .setStatus s e => some (s, e)
    | _ => none

/-- The persisted `processed_rows` values of a trace, in write order. -/
def progressList (ops : List StoreOp) : List Nat :=
  ops.filterMap fun op =>
    match op with
    | .setProgress n => some n
    | _ => none

/-- Whether a store operation writes the `end_timestamp` column (every
`update_job_status` call does; no other write touches it). -/
def writes_end_timestamp : StoreOp → Bool
  | .setStatus _ _ => true
  | _ => false

/-- Whether a store operation sets a terminal status. -/
def terminal_write : StoreOp → Bool
  | .setStatus s _ => s == "completed" || s == "failed"
  | _ => false

/-- The payload built from one input row (`src/worker/processing_script.py`
lines 115-117 feeding `prepare_api_payload`): fields 1 and 2 stripped, the
optional `dob` (field 3) and `pan_number` (field 4) stripped when present. -/
def row_payload (row : List String) : ApiPayload :=
  prepare_api_payload (row.getD 1 "").trim (row.getD 2 "").trim
    (if 3 < row.length then some ((row.getD 3 "").trim) else none)
    (if 4 < row.length then some ((row.getD 4 "").trim) else none)

namespace Worker

/-- The output header written by the worker variant
(`src/worker/processing_script.py` line 108). -/
def ext_header (header : List String) : List Cell :=
  header.map Cell.str ++
    [Cell.str "api_status_code", Cell.str "match_status",
     Cell.str "total_hits", Cell.str "api_error"]

/-- One output data row (`src/worker/processing_script.py` line 128):
the original fields followed by the four derived cells. -/
def out_row (row : List String) (r : CallResult) : List Cell :=
  row.map Cell.str ++ derived_of r

/-- Mutable state of the row loop: `processed` is `processed_count`,
`writeIdx` counts attempted output-row writes (for fault injection),
`ops` the store writes issued so far, `outRows` the output file contents. -/
structure RunState where
  processed : Nat
  writeIdx : Nat
  ops : List StoreOp
  outRows : List (List Cell)
  deriving DecidableEq

/-- The `for row in reader` loop of `run_bulk_job`
(`src/worker/processing_script.py` lines 111-133).  `svc` gives the
Screening Service behaviour per request payload and attempt; `faultAt` is an
optional fault model: the write of output data row number `faultAt` (0-based)
raises an I/O exception, modelling a disk failure mid-stream (the API call of
that row has already happened, matching source order).  Returns the final
state and the exception, if one was raised. -/
def runRows (svc : ApiPayload → Nat → ApiOutcome) (faultAt : Option Nat) :
    List (List String) → RunState → RunState × Option String
  | [], st => (st, none)
  | row :: rest, st =>
    if row.length < 3 then
      runRows svc faultAt rest st
    else
      let r := make_api_call (svc (row_payload row))
      if faultAt = some st.writeIdx then
        (st, some "I/O error: writing output row failed")
      else
        let st1 : RunState :=
          { st with writeIdx := st.writeIdx + 1
                    outRows := st.outRows ++ [out_row row r] }
        let p := st1.processed + 1
        let st2 : RunState :=
          { st1 with processed := p
                     ops := st1.ops ++
                       (if p % 10 = 0 then [StoreOp.setProgress p] else []) }
        runRows svc faultAt rest st2

/-- `run_bulk_job` from `src/worker/processing_script.py` lines 95-148.
The input file is modelled as its parsed CSV rows (`[]` = empty file).
Returns the store-write trace and the output file contents (`some rows` —
the output file is created by `open(output_file_path, 'w')` before the
header is read, so it exists, possibly empty, in every branch; an empty
input raises `StopIteration` at `next(reader)`, caught by the outer
`except Exception`, whose `str(e)` is the empty string). -/
def run_bulk_job (svc : ApiPayload → Nat → ApiOutcome) (faultAt : Option Nat)
    (input : List (List String)) (outPath : String) :
    List StoreOp × Option (List (List Cell)) :=
  match input with
  | [] =>
    ([StoreOp.setStatus "running" none, StoreOp.setStatus "failed" (some "")],
     some [])
  | header :: dataRows =>
    let st0 : RunState := ⟨0, 0, [StoreOp.setStatus "running" none], [ext_header header]⟩
    match runRows svc faultAt dataRows st0 with
    | (st, some msg) =>
      (st.ops ++ [StoreOp.setStatus "failed" (some msg)], some st.outRows)
    | (st, none) =>
      (st.ops ++
        [StoreOp.setProgress st.processed, StoreOp.setOutputRef outPath,
         StoreOp.setStatus "completed" none],
       some st.outRows)

end Worker

/-- Number of well-formed (non-skipped) data rows: the loop drops every row
with fewer than 3 fields. -/
def countGood (rows : List (List String)) : Nat :=
  (rows.filter fun r => decide (3 ≤ r.length)).length

/-- The output data rows produced from `rows`: the well-formed rows, in
input order, each extended with the derived cells of its own API call. -/
def goodOut (svc : ApiPayload → Nat → ApiOutcome) (rows : List (List String)) :
    List (List Cell) :=
  (rows.filter fun r => decide (3 ≤ r.length)).map fun row =>
    Worker.out_row row (Worker.make_api_call (svc (row_payload row)))

namespace StApp

/-- `fetch_hits_json` from `src/streamlit_app.py` lines 68-75: `None` for a
missing/empty url, the body text on success, an error string on failure. -/
def fetch_hits_json (fetch : String → Except String String) :
    Option String → Option String
  | none => none
  | some url =>
    if url = "" then none
    else
      match fetch url with
      | .ok t => some t
      | .error e => some ("Error fetching hits: " ++ e)

/-- The output header written by the Streamlit variant
(`src/streamlit_app.py` line 99): five derived columns, `hits_json` last. -/
def ext_header (header : List String) : List Cell :=
  header.map Cell.str ++
    [Cell.str "api_status_code", Cell.str "match_status",
     Cell.str "total_hits", Cell.str "api_error", Cell.str "hits_json"]

/-- One output data row (`src/streamlit_app.py` lines 108-113): the original
fields, the four derived cells, and the fetched `hits_json` cell (only
fetched on a successful response). -/
def out_row (fetch : String → Except String String) (row : List String)
    (r : CallResult) : List Cell :=
  let hj : Option String :=
    match r.response with
    | some resp =>
      if resp.status = "success" then fetch_hits_json fetch resp.hits else none
    | none => none
  row.map Cell.str ++ derived_of r ++ [optStr hj]

/-- The `for row in reader` loop of the Streamlit `run_bulk_job`
(`src/streamlit_app.py` lines 103-116): same shape as the worker loop but
with the extra `hits_json` column and a checkpoint every 5 rows (the fixed
1-second inter-row throttle does not touch any modelled state). -/
def runRows (svc : ApiPayload → Nat → ApiOutcome)
    (fetch : String → Except String String) :
    List (List String) → Worker.RunState → Worker.RunState
  | [], st => st
  | row :: rest, st =>
    if row.length < 3 then
      runRows svc fetch rest st
    else
      let r := make_api_call (svc (row_payload row))
      let st1 : Worker.RunState :=
        { st with writeIdx := st.writeIdx + 1
                  outRows := st.outRows ++ [out_row fetch row r] }
      let p := st1.processed + 1
      let st2 : Worker.RunState :=
        { st1 with processed := p
                   ops := st1.ops ++
                     (if p % 5 = 0 then [StoreOp.setProgress p] else []) }
      runRows svc fetch rest st2

/-- `run_bulk_job` from `src/streamlit_app.py` lines 92-125.  The output
file is created by `open(output_filepath, 'w')` before the header is read;
an empty input raises `StopIteration` at `next(reader)`, re-raised as
`ValueError("Input file is empty or invalid.")` and caught by the outer
handler, which records its text as `error_message`. -/
def run_bulk_job (svc : ApiPayload → Nat → ApiOutcome)
    (fetch : String → Except String String)
    (input : List (List String)) (outPath : String) :
    List StoreOp × Option (List (List Cell)) :=
  match input with
  | [] =>
    ([StoreOp.setStatus "running" none,
      StoreOp.setStatus "failed" (some "Input file is empty or invalid.")],
     some [])
  | header :: dataRows =>
    let st0 : Worker.RunState :=
      ⟨0, 0, [StoreOp.setStatus "running" none], [ext_header header]⟩
    let st := runRows svc fetch dataRows st0
    (st.ops ++
      [StoreOp.setProgress st.processed, StoreOp.setOutputRef outPath,
       StoreOp.setStatus "completed" none],
     some st.outRows)

end StApp

/-- The reconciliation UPDATE of `setup_database`
(`src/streamlit_app.py` line 47): every `running` job is forced to `failed`
with the fixed message `App restarted`; no other column (in particular not
`end_timestamp`) is touched. -/
def reconcile (jobs : List Job) : List Job :=
  jobs.map fun j =>
    if j.status = "running" then
      { j with status := "failed", error_message := some "App restarted" }
    else j

/-- The per-session one-shot marker guarding `setup_database`
(`st.session_state.reconciliation_done`, `src/streamlit_app.py` line 35). -/
structure SessionState where
  reconciliation_done : Bool
  deriving DecidableEq

/-- `setup_database` from `src/streamlit_app.py` lines 34-51, restricted to
its effect on the jobs table: when the one-shot marker is unset, run the
reconciliation UPDATE and set the marker; otherwise do nothing. -/
def setup_database (ss : SessionState) (jobs : List Job) :
    SessionState × List Job :=
  if ss.reconciliation_done then (ss, jobs)
  else (⟨true⟩, reconcile jobs)

/-- Number of lines Python's `for line in f` yields for the raw file text
`s`: one per newline-terminated segment, plus one for a non-empty final
segment without a terminator. -/
def count_lines (s : String) : Nat :=
  let nl := s.toList.count '\n'
  if s = "" then 0 else if s.back = '\n' then nl else nl + 1

/-- The `total_rows` value computed at submission
(`src/app/main.py` lines 89-90 / `src/streamlit_app.py` line 142):
`sum(1 for line in f) - 1`, as a Python int (so it can be negative). -/
def submission_total_rows (s : String) : Int :=
  (count_lines s : Int) - 1

/-- The job row inserted by `create_upload_file`
(`src/app/main.py` lines 92-99) for an uploaded file with raw text `s`. -/
def create_upload_file (s : String) : Job :=
  freshJob (some (submission_total_rows s))

/-- Boolean check that a list of persisted counters is non-decreasing. -/
def sortedLe : List Nat → Bool
  | [] => true
  | [_] => true
  | a :: b :: t => decide (a ≤ b) && sortedLe (b :: t)

theorem sortedLe_concat (b : Nat) :
    ∀ l : List Nat, sortedLe l = true → (∀ x ∈ l, x ≤ b) →
      sortedLe (l ++ [b]) = true
  | [], _, _ => rfl
  | [a], _, h => by
    have hab : a ≤ b := h a (List.mem_singleton.mpr rfl)
    simp [sortedLe, hab]
  | a :: c :: t, hs, h => by
    simp only [sortedLe, Bool.and_eq_true, decide_eq_true_eq] at hs
    have ih := sortedLe_concat b (c :: t) hs.2
      (fun x hx => h x (List.mem_cons_of_mem a hx))
    show sortedLe (a :: c :: (t ++ [b])) = true
    simp only [sortedLe, Bool.and_eq_true, decide_eq_true_eq]
    exact ⟨hs.1, by simpa using ih⟩

theorem progressList_append (l1 l2 : List StoreOp) :
    progressList (l1 ++ l2) = progressList l1 ++ progressList l2 := by
  simp [progressList, List.filterMap_append]

theorem statusWrites_append (l1 l2 : List StoreOp) :
    statusWrites (l1 ++ l2) = statusWrites l1 ++ statusWrites l2 := by
  simp [statusWrites, List.filterMap_append]

theorem filter_writes_length : ∀ ops : List StoreOp,
    (ops.filter writes_end_timestamp).length = (statusWrites ops).length := by
  intro ops
  induction ops with
  | nil => rfl
  | cons op rest ih =>
    cases op <;>
      simp [writes_end_timestamp, statusWrites, List.filterMap_cons,
        List.filter_cons, ih]

theorem applyOps_append (l1 l2 : List StoreOp) :
    ∀ (t : Nat) (j : Job),
      applyOps t j (l1 ++ l2) = applyOps (t + l1.length) (applyOps t j l1) l2 := by
  induction l1 with
  | nil => intro t j; simp [applyOps]
  | cons op rest ih =>
    intro t j
    show applyOps (t + 1) (applyOp t j op) (rest ++ l2) = _
    rw [ih]
    have harith : t + 1 + rest.length = t + (op :: rest).length := by
      simp [List.length_cons]; omega
    rw [harith]
    rfl

theorem applyOps_last_setStatus (init : List StoreOp) (s : String)
    (e : Option String) (t : Nat) (j : Job) :
    (applyOps t j (init ++ [StoreOp.setStatus s e])).status = s ∧
    (applyOps t j (init ++ [StoreOp.setStatus s e])).error_message = e ∧
    (applyOps t j (init ++ [StoreOp.setStatus s e])).end_timestamp =
      some (t + init.length) := by
  rw [applyOps_append]
  simp [applyOps, applyOp]

/-- A run with no injected fault consumes all rows without raising, counts
exactly the well-formed rows, writes exactly their transforms to the output,
and issues no status write inside the loop. -/
theorem runRows_none (svc : ApiPayload → Nat → ApiOutcome) :
    ∀ (rows : List (List String)) (st : Worker.RunState),
      ∃ delta : List StoreOp,
        Worker.runRows svc none rows st =
          (⟨st.processed + countGood rows, st.writeIdx + countGood rows,
            st.ops ++ delta, st.outRows ++ goodOut svc rows⟩, none) ∧
        statusWrites delta = [] := by
  intro rows
  induction rows with
  | nil =>
    intro st
    exact ⟨[], by simp [Worker.runRows, countGood, goodOut], rfl⟩
  | cons row rest ih =>
    intro st
    obtain ⟨p, w, ops, outs⟩ := st
    by_cases hlen : row.length < 3
    · have h3 : ¬ (3 ≤ row.length) := by omega
      obtain ⟨delta, heq, hsw⟩ := ih ⟨p, w, ops, outs⟩
      refine ⟨delta, ?_, hsw⟩
      rw [show Worker.runRows svc none (row :: rest) ⟨p, w, ops, outs⟩ =
            Worker.runRows svc none rest ⟨p, w, ops, outs⟩ from by
          simp [Worker.runRows, hlen]]
      rw [heq]
      simp [countGood, goodOut, h3]
    · have h3 : (3 ≤ row.length) := by omega
      have hstep : Worker.runRows svc none (row :: rest) ⟨p, w, ops, outs⟩ =
          Worker.runRows svc none rest
            ⟨p + 1, w + 1,
             ops ++ (if (p + 1) % 10 = 0 then [StoreOp.setProgress (p + 1)] else []),
             outs ++ [Worker.out_row row (Worker.make_api_call (svc (row_payload row)))]⟩ := by
        simp [Worker.runRows, hlen]
      obtain ⟨delta, heq, hsw⟩ := ih
        ⟨p + 1, w + 1,
         ops ++ (if (p + 1) % 10 = 0 then [StoreOp.setProgress (p + 1)] else []),
         outs ++ [Worker.out_row row (Worker.make_api_call (svc (row_payload row)))]⟩
      refine ⟨(if (p + 1) % 10 = 0 then [StoreOp.setProgress (p + 1)] else []) ++ delta,
        ?_, ?_⟩
      · rw [hstep, heq]
        have hc : countGood (row :: rest) = countGood rest + 1 := by
          simp [countGood, h3]
        have hg : goodOut svc (row :: rest) =
            Worker.out_row row (Worker.make_api_call (svc (row_payload row))) ::
              goodOut svc rest := by
          simp [goodOut, h3]
        rw [hc, hg]
        simp only [Prod.mk.injEq, Worker.RunState.mk.injEq, List.append_assoc,
          List.cons_append, List.nil_append, List.singleton_append]
        exact ⟨⟨by omega, by omega, trivial, trivial⟩, trivial⟩
      · rw [statusWrites_append, hsw, List.append_nil]
        by_cases hmod : (p + 1) % 10 = 0 <;> simp [hmod, statusWrites]

/-- The row loop never writes a job status, whatever faults occur. -/
theorem runRows_statusWrites (svc : ApiPayload → Nat → ApiOutcome)
    (faultAt : Option Nat) :
    ∀ (rows : List (List String)) (st : Worker.RunState),
      statusWrites (Worker.runRows svc faultAt rows st).1.ops =
        statusWrites st.ops := by
  intro rows
  induction rows with
  | nil => intro st; simp [Worker.runRows]
  | cons row rest ih =>
    intro st
    obtain ⟨p, w, ops, outs⟩ := st
    by_cases hlen : row.length < 3
    · rw [show Worker.runRows svc faultAt (row :: rest) ⟨p, w, ops, outs⟩ =
            Worker.runRows svc faultAt rest ⟨p, w, ops, outs⟩ from by
          simp [Worker.runRows, hlen]]
      exact ih _
    · by_cases hf : faultAt = some w
      · simp [Worker.runRows, hlen, hf]
      · rw [show Worker.runRows svc faultAt (row :: rest) ⟨p, w, ops, outs⟩ =
              Worker.runRows svc faultAt rest
                ⟨p + 1, w + 1,
                 ops ++ (if (p + 1) % 10 = 0 then [StoreOp.setProgress (p + 1)] else []),
                 outs ++ [Worker.out_row row (Worker.make_api_call (svc (row_payload row)))]⟩ from by
            simp [Worker.runRows, hlen, hf]]
        rw [ih]
        by_cases hmod : (p + 1) % 10 = 0 <;>
          simp [hmod, statusWrites_append, statusWrites]

/-- The persisted progress counters stay sorted and bounded by the running
count through the loop, whatever faults occur. -/
theorem runRows_sorted (svc : ApiPayload → Nat → ApiOutcome)
    (faultAt : Option Nat) :
    ∀ (rows : List (List String)) (st : Worker.RunState),
      sortedLe (progressList st.ops) = true →
      (∀ x ∈ progressList st.ops, x ≤ st.processed) →
      sortedLe (progressList (Worker.runRows svc faultAt rows st).1.ops) = true ∧
      (∀ x ∈ progressList (Worker.runRows svc faultAt rows st).1.ops,
        x ≤ (Worker.runRows svc faultAt rows st).1.processed) := by
  intro rows
  induction rows with
  | nil => intro st hs hb; simpa [Worker.runRows] using ⟨hs, hb⟩
  | cons row rest ih =>
    intro st hs hb
    obtain ⟨p, w, ops, outs⟩ := st
    by_cases hlen : row.length < 3
    · rw [show Worker.runRows svc faultAt (row :: rest) ⟨p, w, ops, outs⟩ =
            Worker.runRows svc faultAt rest ⟨p, w, ops, outs⟩ from by
          simp [Worker.runRows, hlen]]
      exact ih _ hs hb
    · by_cases hf : faultAt = some w
      · rw [show Worker.runRows svc faultAt (row :: rest) ⟨p, w, ops, outs⟩ =
              (⟨p, w, ops, outs⟩, some "I/O error: writing output row failed") from by
            simp [Worker.runRows, hlen, hf]]
        exact ⟨hs, hb⟩
      · rw [show Worker.runRows svc faultAt (row :: rest) ⟨p, w, ops, outs⟩ =
              Worker.runRows svc faultAt rest
                ⟨p + 1, w + 1,
                 ops ++ (if (p + 1) % 10 = 0 then [StoreOp.setProgress (p + 1)] else []),
                 outs ++ [Worker.out_row row (Worker.make_api_call (svc (row_payload row)))]⟩ from by
            simp [Worker.runRows, hlen, hf]]
        apply ih
        · by_cases hmod : (p + 1) % 10 = 0
          · rw [hmod]
            simp only [if_pos trivial, progressList_append]
            rw [show progressList [StoreOp.setProgress (p + 1)] = [p + 1] from rfl]
            exact sortedLe_concat (p + 1) _ hs
              (fun x hx => Nat.le_succ_of_le (hb x hx))
          · simpa [hmod, progressList_append, progressList] using hs
        · intro x hx
          have hx2 : x ∈ progressList
              (ops ++ (if (p + 1) % 10 = 0 then [StoreOp.setProgress (p + 1)] else [])) := hx
          rw [progressList_append] at hx2
          show x ≤ p + 1
          rcases List.mem_append.mp hx2 with hx3 | hx3
          · have hxp : x ≤ p := hb x hx3
            omega
          · by_cases hmod : (p + 1) % 10 = 0
            · rw [if_pos hmod] at hx3
              have hxe : x = p + 1 := by simpa [progressList] using hx3
              omega
            · rw [if_neg hmod] at hx3
              simp [progressList] at hx3

/-- Dropping a malformed row (fewer than 3 fields) anywhere in the input
leaves the whole loop computation unchanged. -/
theorem runRows_skip (svc : ApiPayload → Nat → ApiOutcome) (faultAt : Option Nat)
    (row : List String) (hrow : row.length < 3) :
    ∀ (pre rest : List (List String)) (st : Worker.RunState),
      Worker.runRows svc faultAt (pre ++ row :: rest) st =
        Worker.runRows svc faultAt (pre ++ rest) st := by
  intro pre
  induction pre with
  | nil =>
    intro rest st
    simp [Worker.runRows, hrow]
  | cons a pre ih =>
    intro rest st
    obtain ⟨p, w, ops, outs⟩ := st
    by_cases ha : a.length < 3
    · rw [List.cons_append, List.cons_append,
        show Worker.runRows svc faultAt (a :: (pre ++ row :: rest)) ⟨p, w, ops, outs⟩ =
          Worker.runRows svc faultAt (pre ++ row :: rest) ⟨p, w, ops, outs⟩ from by
            simp [Worker.runRows, ha],
        show Worker.runRows svc faultAt (a :: (pre ++ rest)) ⟨p, w, ops, outs⟩ =
          Worker.runRows svc faultAt (pre ++ rest) ⟨p, w, ops, outs⟩ from by
            simp [Worker.runRows, ha]]
      exact ih rest _
    · by_cases hf : faultAt = some w
      · simp [Worker.runRows, ha, hf]
      · rw [List.cons_append, List.cons_append,
          show Worker.runRows svc faultAt (a :: (pre ++ row :: rest)) ⟨p, w, ops, outs⟩ =
            Worker.runRows svc faultAt (pre ++ row :: rest)
              ⟨p + 1, w + 1,
               ops ++ (if (p + 1) % 10 = 0 then [StoreOp.setProgress (p + 1)] else []),
               outs ++ [Worker.out_row a (Worker.make_api_call (svc (row_payload a)))]⟩ from by
              simp [Worker.runRows, ha, hf],
          show Worker.runRows svc faultAt (a :: (pre ++ rest)) ⟨p, w, ops, outs⟩ =
            Worker.runRows svc faultAt (pre ++ rest)
              ⟨p + 1, w + 1,
               ops ++ (if (p + 1) % 10 = 0 then [StoreOp.setProgress (p + 1)] else []),
               outs ++ [Worker.out_row a (Worker.make_api_call (svc (row_payload a)))]⟩ from by
              simp [Worker.runRows, ha, hf]]
        exact ih rest _

/-- Pointwise description of the reconciliation UPDATE. -/
theorem reconcile_getD :
    ∀ (jobs : List Job) (i : Nat), i < jobs.length →
      (reconcile jobs).getD i defaultJob =
        (if (jobs.getD i defaultJob).status = "running" then
          { jobs.getD i defaultJob with
              status := "failed", error_message := some "App restarted" }
        else jobs.getD i defaultJob) := by
  intro jobs
  induction jobs with
  | nil => intro i hi; simp at hi
  | cons j rest ih =>
    intro i hi
    cases i with
    | zero => simp [reconcile]
    | succ n =>
      have hn : n < rest.length := by simpa using hi
      have := ih n hn
      simpa [reconcile] using this

/-- A Screening Service that always fails, as a payload-indexed service. -/
def svcFail : ApiPayload → Nat → ApiOutcome :=
  fun _ _ => ApiOutcome.failure "timeout" (-1)

/-- A hits fetcher that always fails. -/
def fetchFail : String → Except String String :=
  fun _ => Except.error "net"

/-- Claim C10: at submission, `total_rows` is computed as the input file's
raw line count minus one, so an empty uploaded file is recorded with
`total_rows = -1` — a negative count, not 0 or unknown. -/
theorem claim_c10 :
    (∀ s : String, submission_total_rows s = (count_lines s : Int) - 1) ∧
    count_lines "" = 0 ∧
    submission_total_rows "" = -1 ∧
    (create_upload_file "").total_rows = some (-1) ∧
    (create_upload_file "").status = "pending" := by
  refine ⟨fun s => rfl, rfl, by decide, by decide, rfl⟩

/-- Claim C7: a file containing only the header row `id,name,type` is
recorded with `total_rows = 0`, and the job runs to `completed` with an
output containing only the extended header and no data rows (the final
progress checkpoint persisting 0). -/
theorem claim_c7 :
    ∀ (svc : ApiPayload → Nat → ApiOutcome) (p : String),
      submission_total_rows "id,name,type\n" = 0 ∧
      Worker.run_bulk_job svc none [["id", "name", "type"]] p =
        ([StoreOp.setStatus "running" none, StoreOp.setProgress 0,
          StoreOp.setOutputRef p, StoreOp.setStatus "completed" none],
         some [Worker.ext_header ["id", "name", "type"]]) := by
  intro svc p
  exact ⟨by decide, rfl⟩

/-- Claim C9: for the well-formed input with header `id,name,type` and data
rows `(1,Alice,individual)` and `(2,Bob,company)`, the output file holds
exactly those two rows, original fields preserved and in input order, each
extended with the four derived cells of its own screening call, and the job
completes. -/
theorem claim_c9 :
    ∀ (svc : ApiPayload → Nat → ApiOutcome) (p : String),
      (Worker.run_bulk_job svc none
          [["id", "name", "type"], ["1", "Alice", "individual"],
           ["2", "Bob", "company"]] p).2 =
        some [Worker.ext_header ["id", "name", "type"],
          [Cell.str "1", Cell.str "Alice", Cell.str "individual"] ++
            derived_of (Worker.make_api_call
              (svc (row_payload ["1", "Alice", "individual"]))),
          [Cell.str "2", Cell.str "Bob", Cell.str "company"] ++
            derived_of (Worker.make_api_call
              (svc (row_payload ["2", "Bob", "company"])))] ∧
      (∀ r : CallResult, (derived_of r).length = 4) ∧
      statusWrites (Worker.run_bulk_job svc none
          [["id", "name", "type"], ["1", "Alice", "individual"],
           ["2", "Bob", "company"]] p).1 =
        [("running", none), ("completed", none)] := by
  intro svc p
  exact ⟨rfl, fun r => rfl, rfl⟩

/-- Claim C4: every job record with `status = running` present when the
Reconciler runs is forced to `status = failed` with the fixed, non-null
`error_message = "App restarted"`, and the one-shot marker makes a second
invocation in the same session a no-op. -/
theorem claim_c4 (jobs : List Job) (i : Nat) (hi : i < jobs.length)
    (hr : (jobs.getD i defaultJob).status = "running") :
    ((setup_database ⟨false⟩ jobs).2.getD i defaultJob).status = "failed" ∧
    ((setup_database ⟨false⟩ jobs).2.getD i defaultJob).error_message =
      some "App restarted" ∧
    (setup_database ⟨false⟩ jobs).1.reconciliation_done = true ∧
    (∀ (ss : SessionState) (jobs2 : List Job), ss.reconciliation_done = true →
      setup_database ss jobs2 = (ss, jobs2)) := by
  have hrec := reconcile_getD jobs i hi
  rw [if_pos hr] at hrec
  refine ⟨?_, ?_, rfl, ?_⟩
  · show ((reconcile jobs).getD i defaultJob).status = "failed"
    rw [hrec]
  · show ((reconcile jobs).getD i defaultJob).error_message = some "App restarted"
    rw [hrec]
  · intro ss jobs2 hss
    obtain ⟨b⟩ := ss
    subst hss
    rfl

/-- A concrete jobs table with one orphaned running job. -/
def jobsW : List Job := [⟨"running", some 3, none, some 5, 2, none⟩]

/-- Witness for C4 at a concrete one-job table. -/
theorem claim_c4_witness :
    (0 < jobsW.length ∧ (jobsW.getD 0 defaultJob).status = "running") ∧
    (((setup_database ⟨false⟩ jobsW).2.getD 0 defaultJob).status = "failed" ∧
     ((setup_database ⟨false⟩ jobsW).2.getD 0 defaultJob).error_message =
       some "App restarted" ∧
     (setup_database ⟨false⟩ jobsW).1.reconciliation_done = true ∧
     (∀ (ss : SessionState) (jobs2 : List Job), ss.reconciliation_done = true →
       setup_database ss jobs2 = (ss, jobs2))) :=
  ⟨⟨by decide, by decide⟩, claim_c4 jobsW 0 (by decide) (by decide)⟩

/-- Claim C5 (counterexample): on an empty input file, the output file IS
created (empty) — `open(output, 'w')` runs before the header read — and the
worker variant records the empty string as `error_message`
(`str(StopIteration())`), not a description of invalid input. -/
theorem claim_c5_counterexample :
    (StApp.run_bulk_job svcFail fetchFail [] "out").2 = some [] ∧
    (Worker.run_bulk_job svcFail none [] "out").1 =
      [StoreOp.setStatus "running" none, StoreOp.setStatus "failed" (some "")] := by
  exact ⟨rfl, rfl⟩

/-- Claim C5 (amended): an empty input yields a `failed` job — with
`error_message = "Input file is empty or invalid."` in the Streamlit variant
but the empty string in the worker variant — and an empty output file is
created and left in place. -/
theorem claim_c5_amended :
    ∀ (svc : ApiPayload → Nat → ApiOutcome)
      (fetch : String → Except String String) (p : String),
      StApp.run_bulk_job svc fetch [] p =
        ([StoreOp.setStatus "running" none,
          StoreOp.setStatus "failed" (some "Input file is empty or invalid.")],
         some []) ∧
      Worker.run_bulk_job svc none [] p =
        ([StoreOp.setStatus "running" none,
          StoreOp.setStatus "failed" (some "")],
         some []) := by
  intro svc fetch p
  exact ⟨rfl, rfl⟩

/-- Claim C1 (counterexample): with a service that always fails, the worker
`make_api_call` returns the last observed error but WITHOUT any
"max retries reached" indicator (its `return None, -1, "Max retries
reached"` line is unreachable), while the Streamlit variant returns the
fixed "Max retries reached" string but WITHOUT the last observed error
(and sleeps after the last attempt too). -/
theorem claim_c1_counterexample :
    Worker.make_api_call failSvc =
      ⟨none, 500, some "Error on attempt 3: timeout", 3, [1, 1]⟩ ∧
    mentions "Error on attempt 3: timeout" "Max retries reached" = false ∧
    StApp.make_api_call failSvc =
      ⟨none, -1, some "Max retries reached", 3, [1, 1, 1]⟩ ∧
    mentions "Max retries reached" "timeout" = false := by
  refine ⟨by decide, by decide, by decide, by decide⟩

/-- Claim C1 (amended): when every attempt fails, both retry wrappers make
exactly 3 attempts; the worker variant sleeps 1s between attempts and
returns the last observed error and its status code, the Streamlit variant
sleeps 1s after every failed attempt (three sleeps) and returns the fixed
"Max retries reached" string with code -1; in both cases the output row
fields are api_error set, match_status and total_hits null.  A first-attempt
success returns immediately with no sleep. -/
theorem claim_c1_amended :
    ∀ (msgs : Nat → String) (codes : Nat → Int),
      Worker.make_api_call (fun n => ApiOutcome.failure (msgs n) (codes n)) =
        ⟨none, codes 2, some (attempt_error 3 (msgs 2)), 3, [1, 1]⟩ ∧
      StApp.make_api_call (fun n => ApiOutcome.failure (msgs n) (codes n)) =
        ⟨none, -1, some "Max retries reached", 3, [1, 1, 1]⟩ ∧
      derived_of (Worker.make_api_call
          (fun n => ApiOutcome.failure (msgs n) (codes n))) =
        [Cell.int (codes 2), Cell.null, Cell.null,
         Cell.str (attempt_error 3 (msgs 2))] ∧
      (∀ (resp : ApiResponseJson) (c : Int) (rest : Nat → ApiOutcome),
        Worker.make_api_call
            (fun n => match n with
              | 0 => ApiOutcome.success resp c
              | m + 1 => rest m) =
          ⟨some resp, c, none, 1, []⟩) := by
  intro msgs codes
  exact ⟨rfl, rfl, rfl, fun resp c rest => rfl⟩

/-- Claim C8: a data row with fewer than 3 fields is silently dropped —
deleting it from the input leaves the entire run (store-write trace,
persisted counters, and output file) unchanged, so it produces no output
row, does not increment processed_rows, raises nothing, and processing of
the remaining rows continues. -/
theorem claim_c8 (svc : ApiPayload → Nat → ApiOutcome) (faultAt : Option Nat)
    (header : List String) (pre rest : List (List String)) (p : String)
    (row : List String) (hrow : row.length < 3) :
    Worker.run_bulk_job svc faultAt (header :: (pre ++ row :: rest)) p =
      Worker.run_bulk_job svc faultAt (header :: (pre ++ rest)) p := by
  simp only [Worker.run_bulk_job]
  rw [runRows_skip svc faultAt row hrow pre rest]

/-- Witness for C8: dropping the 2-field row `["x","y"]` leaves the run on a
concrete input unchanged. -/
theorem claim_c8_witness :
    (["x", "y"] : List String).length < 3 ∧
    Worker.run_bulk_job svcFail none
        [["h1", "h2", "h3"], ["x", "y"], ["a", "b", "c"]] "out" =
      Worker.run_bulk_job svcFail none
        [["h1", "h2", "h3"], ["a", "b", "c"]] "out" :=
  ⟨by decide,
   claim_c8 svcFail none ["h1", "h2", "h3"] [] [["a", "b", "c"]] "out"
     ["x", "y"] (by decide)⟩

/-- Claim C6: a failed screening call never escapes the row transform: with
no I/O fault, the job completes whatever the service does — the output holds
the extended header plus one transformed row per well-formed input row — and
when every attempt for a row fails, that row's derived cells are
`api_error` populated and `match_status`/`total_hits` null. -/
theorem claim_c6 :
    (∀ (svc : ApiPayload → Nat → ApiOutcome) (header : List String)
        (rows : List (List String)) (p : String),
      (Worker.run_bulk_job svc none (header :: rows) p).2 =
        some (Worker.ext_header header :: goodOut svc rows) ∧
      statusWrites (Worker.run_bulk_job svc none (header :: rows) p).1 =
        [("running", none), ("completed", none)]) ∧
    (∀ (msgs : Nat → String) (codes : Nat → Int),
      derived_of (Worker.make_api_call
          (fun n => ApiOutcome.failure (msgs n) (codes n))) =
        [Cell.int (codes 2), Cell.null, Cell.null,
         Cell.str (attempt_error 3 (msgs 2))]) := by
  constructor
  · intro svc header rows p
    obtain ⟨delta, heq, hsw⟩ := runRows_none svc rows
      ⟨0, 0, [StoreOp.setStatus "running" none], [Worker.ext_header header]⟩
    have hrun : Worker.run_bulk_job svc none (header :: rows) p =
        (([StoreOp.setStatus "running" none] ++ delta) ++
           [StoreOp.setProgress (0 + countGood rows), StoreOp.setOutputRef p,
            StoreOp.setStatus "completed" none],
         some ([Worker.ext_header header] ++ goodOut svc rows)) := by
      simp only [Worker.run_bulk_job]
      rw [heq]
    constructor
    · rw [hrun]
      rfl
    · rw [hrun]
      rw [statusWrites_append, statusWrites_append, hsw]
      rfl
  · intro msgs codes
    rfl

/-- Claim C2 (counterexample): on a concrete header-only run, the trace
contains an `end_timestamp` write whose status is `running` (the
`update_job_status(job_id, "running")` call), and the total number of
`end_timestamp` writes is 2, not 1 — so `end_timestamp` is not written
exactly once at the terminal transition only. -/
theorem claim_c2_counterexample :
    ((Worker.run_bulk_job svcFail none [["id", "name", "type"]] "out").1.all
      fun op => !writes_end_timestamp op || terminal_write op) = false ∧
    ((Worker.run_bulk_job svcFail none
        [["id", "name", "type"]] "out").1.filter writes_end_timestamp).length ≠ 1 := by
  exact ⟨by decide, by decide⟩

/-- Claim C2 (amended): `end_timestamp` is (over)written by every
`update_job_status` call — exactly twice per run, first at the transition to
`running` and again at the terminal transition — the only status writes of a
run are `running` followed by `completed` or `failed`, and the job row after
applying the trace is terminal with `end_timestamp` set. -/
theorem claim_c2_amended :
    ∀ (svc : ApiPayload → Nat → ApiOutcome) (faultAt : Option Nat)
      (input : List (List String)) (p : String) (tr : Option Int) (t0 : Nat),
      ∃ term err,
        statusWrites (Worker.run_bulk_job svc faultAt input p).1 =
          [("running", none), (term, err)] ∧
        (term = "completed" ∨ term = "failed") ∧
        ((Worker.run_bulk_job svc faultAt input p).1.filter
            writes_end_timestamp).length = 2 ∧
        (applyOps t0 (freshJob tr)
            (Worker.run_bulk_job svc faultAt input p).1).end_timestamp.isSome =
          true ∧
        (applyOps t0 (freshJob tr)
            (Worker.run_bulk_job svc faultAt input p).1).status = term := by
  intro svc faultAt input p tr t0
  match input with
  | [] =>
    exact ⟨"failed", some "", rfl, Or.inr rfl, rfl, rfl, rfl⟩
  | header :: rows =>
    have hsw0 := runRows_statusWrites svc faultAt rows
      ⟨0, 0, [StoreOp.setStatus "running" none], [Worker.ext_header header]⟩
    rcases hrr : Worker.runRows svc faultAt rows
        ⟨0, 0, [StoreOp.setStatus "running" none], [Worker.ext_header header]⟩
      with ⟨st, exc⟩
    rw [hrr] at hsw0
    have hstOps : statusWrites st.ops = [("running", none)] := hsw0
    cases exc with
    | some msg =>
      have hrun : Worker.run_bulk_job svc faultAt (header :: rows) p =
          (st.ops ++ [StoreOp.setStatus "failed" (some msg)], some st.outRows) := by
        simp only [Worker.run_bulk_job]
        rw [hrr]
      refine ⟨"failed", some msg, ?_, Or.inr rfl, ?_, ?_, ?_⟩
      · rw [hrun, statusWrites_append, hstOps]
        rfl
      · rw [hrun, filter_writes_length, statusWrites_append, hstOps]
        rfl
      · rw [hrun,
          (applyOps_last_setStatus st.ops "failed" (some msg) t0 (freshJob tr)).2.2]
        rfl
      · rw [hrun]
        exact (applyOps_last_setStatus st.ops "failed" (some msg) t0 (freshJob tr)).1
    | none =>
      have hrun : Worker.run_bulk_job svc faultAt (header :: rows) p =
          ((st.ops ++ [StoreOp.setProgress st.processed, StoreOp.setOutputRef p]) ++
             [StoreOp.setStatus "completed" none],
           some st.outRows) := by
        simp only [Worker.run_bulk_job]
        rw [hrr]
        simp [List.append_assoc]
      refine ⟨"completed", none, ?_, Or.inl rfl, ?_, ?_, ?_⟩
      · rw [hrun, statusWrites_append, statusWrites_append, hstOps]
        rfl
      · rw [hrun, filter_writes_length, statusWrites_append, statusWrites_append,
          hstOps]
        rfl
      · rw [hrun,
          (applyOps_last_setStatus _ "completed" none t0 (freshJob tr)).2.2]
        rfl
      · rw [hrun]
        exact (applyOps_last_setStatus _ "completed" none t0 (freshJob tr)).1

/-- Twelve well-formed data rows. -/
def rows12 : List (List String) := List.replicate 12 ["7", "Ann", "company"]

/-- Claim C3 (counterexample): with an I/O fault while writing the 12th
output row, the job terminates `failed` after fully processing 11 rows
(the output holds the header plus 11 data rows), yet the last persisted
`processed_rows` value is the checkpoint 10 — the terminal counter does not
equal the number of non-skipped rows processed. -/
theorem claim_c3_counterexample :
    statusWrites (Worker.run_bulk_job svcFail (some 11)
        (["id", "name", "type"] :: rows12) "out").1 =
      [("running", none),
       ("failed", some "I/O error: writing output row failed")] ∧
    progressList (Worker.run_bulk_job svcFail (some 11)
        (["id", "name", "type"] :: rows12) "out").1 = [10] ∧
    ((Worker.run_bulk_job svcFail (some 11)
        (["id", "name", "type"] :: rows12) "out").2.map List.length) = some 12 := by
  refine ⟨by decide, by decide, by decide⟩

/-- Claim C3 (amended): the persisted `processed_rows` values are
monotonically non-decreasing in every run, faults included; and whenever the
run completes normally, the final persisted value equals the exact number of
non-skipped input rows.  (A job that fails mid-stream keeps the last
checkpoint instead, as the counterexample shows.) -/
theorem claim_c3_amended :
    (∀ (svc : ApiPayload → Nat → ApiOutcome) (faultAt : Option Nat)
        (input : List (List String)) (p : String),
      sortedLe (progressList (Worker.run_bulk_job svc faultAt input p).1) = true) ∧
    (∀ (svc : ApiPayload → Nat → ApiOutcome) (header : List String)
        (rows : List (List String)) (p : String),
      (progressList (Worker.run_bulk_job svc none (header :: rows) p).1).getLast? =
        some (countGood rows) ∧
      statusWrites (Worker.run_bulk_job svc none (header :: rows) p).1 =
        [("running", none), ("completed", none)]) := by
  constructor
  · intro svc faultAt input p
    match input with
    | [] => rfl
    | header :: rows =>
      have hinv := runRows_sorted svc faultAt rows
        ⟨0, 0, [StoreOp.setStatus "running" none], [Worker.ext_header header]⟩
        rfl
        (fun x hx => absurd (hx : x ∈ ([] : List Nat)) (List.not_mem_nil x))
      rcases hrr : Worker.runRows svc faultAt rows
          ⟨0, 0, [StoreOp.setStatus "running" none], [Worker.ext_header header]⟩
        with ⟨st, exc⟩
      rw [hrr] at hinv
      cases exc with
      | some msg =>
        have hrun : Worker.run_bulk_job svc faultAt (header :: rows) p =
            (st.ops ++ [StoreOp.setStatus "failed" (some msg)], some st.outRows) := by
          simp only [Worker.run_bulk_job]
          rw [hrr]
        rw [hrun]
        show sortedLe (progressList (st.ops ++ [StoreOp.setStatus "failed" (some msg)])) = true
        rw [progressList_append]
        rw [show progressList [StoreOp.setStatus "failed" (some msg)] = [] from rfl,
          List.append_nil]
        exact hinv.1
      | none =>
        have hrun : Worker.run_bulk_job svc faultAt (header :: rows) p =
            (st.ops ++
               [StoreOp.setProgress st.processed, StoreOp.setOutputRef p,
                StoreOp.setStatus "completed" none],
             some st.outRows) := by
          simp only [Worker.run_bulk_job]
          rw [hrr]
        rw [hrun]
        show sortedLe (progressList (st.ops ++
          [StoreOp.setProgress st.processed, StoreOp.setOutputRef p,
           StoreOp.setStatus "completed" none])) = true
        rw [progressList_append]
        rw [show progressList
              [StoreOp.setProgress st.processed, StoreOp.setOutputRef p,
               StoreOp.setStatus "completed" none] = [st.processed] from rfl]
        exact sortedLe_concat st.processed _ hinv.1 hinv.2
  · intro svc header rows p
    obtain ⟨delta, heq, hsw⟩ := runRows_none svc rows
      ⟨0, 0, [StoreOp.setStatus "running" none], [Worker.ext_header header]⟩
    have hrun : Worker.run_bulk_job svc none (header :: rows) p =
        (([StoreOp.setStatus "running" none] ++ delta) ++
           [StoreOp.setProgress (0 + countGood rows), StoreOp.setOutputRef p,
            StoreOp.setStatus "completed" none],
         some ([Worker.ext_header header] ++ goodOut svc rows)) := by
      simp only [Worker.run_bulk_job]
      rw [heq]
    constructor
    · rw [hrun]
      show (progressList (([StoreOp.setStatus "running" none] ++ delta) ++
        [StoreOp.setProgress (0 + countGood rows), StoreOp.setOutputRef p,
         StoreOp.setStatus "completed" none])).getLast? = some (countGood rows)
      rw [progressList_append]
      rw [show progressList
            [StoreOp.setProgress (0 + countGood rows), StoreOp.setOutputRef p,
             StoreOp.setStatus "completed" none] = [0 + countGood rows] from rfl]
      rw [List.getLast?_concat]
      rw [Nat.zero_add]
    · rw [hrun, statusWrites_append, statusWrites_append, hsw]
      rfl
